import Mathlib

/-!
Verification of the webhook task-processing pipeline in
`src/hooks/hook-example.py` (a Bottle HTTP app plus a MongoDB-backed
polling worker).

The embedding translates the Python source:
* the Mongo collection `tasks` becomes `Store`: a list of `Task`
  documents plus a counter supplying the fresh `_id` that Mongo assigns
  to every inserted document;
* `post_task` / `get_tasks` become pure functions from a store and the
  request data to the new store and the HTTP outcome; an uncaught Python
  exception inside a handler is the `HttpOut.raised` outcome (Bottle
  turns it into a 500 response);
* the worker body (one iteration of the `while True` loop in `runtasks`)
  becomes `runtasksStep`; the pluggable labeling function and the
  outbound `requests.post` are parameters, since the first is the
  operator-editable plugin boundary and the second is external I/O whose
  outcome (an HTTP response, or a raised transport error) the worker
  merely observes;
* `compute_labels` is embedded with the base64/PIL decoding step as an
  oracle `dec` on the `image_b64` field, because decoding is the only
  point of that function that can raise;
* request payloads are modelled as well-formed submission objects
  (`TaskRequest`); a request body that is not valid JSON is the
  `Body.malformed` case, in which `json.loads` raises.  JSON payloads
  that parse to a non-object value are outside the model, and
  `get_tasks` is modelled on stores of such well-formed documents (on a
  document missing `user_id`/`camera` the real handler raises KeyError).
-/

namespace HookSpec

/-- One element of the `images` list of a submission payload. -/
structure Image where
  type : String
  size : Nat × Nat
  timestamp : String
  image_b64 : String
deriving DecidableEq, Repr

/-- A well-formed submission payload (`request` field of a task document). -/
structure TaskRequest where
  user_id : String
  camera : String
  images : List Image
  callback_url : String
deriving DecidableEq, Repr

/-- The `status` field of a task document.  The source only ever writes
the strings `pending` (at insertion), `completed` and `error`. -/
inductive Status where
  | pending
  | completed
  | error
deriving DecidableEq, Repr

/-- A document of the Mongo collection `tasks`. -/
structure Task where
  _id : Nat
  request : TaskRequest
  status : Status
  traceback : Option String
deriving DecidableEq, Repr

/-- The `tasks` collection: documents in insertion order, plus the next
fresh `_id` Mongo would assign. -/
structure Store where
  tasks : List Task
  nextId : Nat
deriving DecidableEq, Repr

def emptyStore : Store := { tasks := [], nextId := 0 }

/-- The shared secret from line 22 of the source. -/
def API_KEY : String := "123456789"

/-- `tasks.insert({'request': payload, 'status': 'pending'})`: Mongo
appends a new document and assigns it a fresh `_id`; there is no
duplicate check of any kind. -/
def insertTask (s : Store) (p : TaskRequest) : Store :=
  { tasks := s.tasks ++ [{ _id := s.nextId, request := p, status := .pending, traceback := none }],
    nextId := s.nextId + 1 }

/-- The request body seen by `post_task`: empty (falsy, skips the insert
branch), a body that `json.loads` cannot parse (raises), or a body that
parses to a well-formed submission object. -/
inductive Body where
  | empty
  | malformed
  | jsonObject (p : TaskRequest)
deriving DecidableEq, Repr

/-- Outcome of an HTTP handler: an explicit response, or an uncaught
exception escaping the handler (Bottle then answers 500). -/
inductive HttpOut where
  | response (status : Nat) (body : String)
  | raised
deriving DecidableEq, Repr

/-- `post_task(secret)`, lines 33-45 of the source: reads the body,
returns 400 `Invalid API Key` on a secret mismatch (before any parsing);
otherwise, when the body is non-empty, parses it (`json.loads` raises on
malformed input) and inserts a new pending task; returns 200 `ok`. -/
def post_task (s : Store) (secret : String) (body : Body) : Store × HttpOut :=
  if secret ≠ API_KEY then
    (s, .response 400 "Invalid API Key")
  else
    match body with
    | .empty => (s, .response 200 "ok")
    | .malformed => (s, .raised)
    | .jsonObject p => (insertTask s p, .response 200 "ok")

/-- The single-quote character, used by Python 2 `repr` of a `str`. -/
def quoteChar : Char := Char.ofNat 39

/-- Python 2 `repr` of a `str`, for strings of printable ASCII that
contain no quote or backslash characters (on other strings `repr`
escapes or switches the quoting style; the handler below only ever
applies it to `user_id`/`camera` text). -/
def py2ReprStr (s : String) : String :=
  String.singleton quoteChar ++ s ++ String.singleton quoteChar

/-- Python 2 `repr` of a list of such strings. -/
def py2ReprStrList (xs : List String) : String :=
  "[" ++ String.intercalate ", " (xs.map py2ReprStr) ++ "]"

/-- The list comprehension of line 53: one `<user_id>/<camera>` string
per document matching `{'status': 'pending'}`, in collection order. -/
def pendingSummaries (s : Store) : List String :=
  (s.tasks.filter (fun t => t.status = .pending)).map
    (fun t => t.request.user_id ++ "/" ++ t.request.camera)

/-- `get_tasks(secret)`, lines 47-53 of the source: 400 `Invalid API
Key` on a secret mismatch, otherwise 200 with `repr` of the list of
pending `<user_id>/<camera>` strings. -/
def get_tasks (s : Store) (secret : String) : Nat × String :=
  if secret ≠ API_KEY then
    (400, "Invalid API Key")
  else
    (200, py2ReprStrList (pendingSummaries s))

/-- Result of a fallible Python call: a value, or a raised exception
carrying a description. -/
inductive PyResult (α : Type) where
  | ok (a : α)
  | exn (msg : String)
deriving DecidableEq, Repr

/-- One label: a probability and an optional polygon (the numeric
literals 0.93 / 0.88 of the source are exact decimals, embedded as
rationals). -/
structure Label where
  probability : Rat
  polygon : List (Rat × Rat)
deriving DecidableEq, Repr

/-- A Python dict from label name to `Label`, as an association list in
insertion order with unique keys. -/
def LabelMap := List (String × Label)
deriving DecidableEq, Repr

/-- A Python dict from image timestamp to `LabelMap` (the LabelResult of
the spec), as an association list in insertion order with unique keys. -/
def Labels := List (String × LabelMap)
deriving DecidableEq, Repr

/-- Python dict assignment `d[k] = v`: replaces the binding of `k` when
present, otherwise appends it. -/
def dictInsert (k : String) (v : LabelMap) : Labels → Labels
  | [] => [(k, v)]
  | (k2, v2) :: rest => if k2 = k then (k, v) :: rest else (k2, v2) :: dictInsert k v rest

/-- The constant dict assigned per image on lines 96-99. -/
def catDogLabels : LabelMap :=
  [("cat", { probability := (93 : Rat) / 100, polygon := [] }),
   ("dog", { probability := (88 : Rat) / 100, polygon := [] })]

/-- The loop body of `compute_labels` over the remaining images:
`base64.b64decode` / `Image.open` (the oracle `dec` on the `image_b64`
field) may raise, aborting the whole call; otherwise the image's
timestamp is mapped to the constant cat/dog dict. -/
def computeLabelsGo (dec : String → PyResult Unit) : List Image → Labels → PyResult Labels
  | [], acc => .ok acc
  | img :: rest, acc =>
    match dec img.image_b64 with
    | .exn m => .exn m
    | .ok _ => computeLabelsGo dec rest (dictInsert img.timestamp catDogLabels acc)

/-- `compute_labels(images)`, lines 88-100 of the source. -/
def compute_labels (dec : String → PyResult Unit) (images : List Image) : PyResult Labels :=
  computeLabelsGo dec images []

/-- The JSON payload handed to `requests.post` on line 118. -/
structure Payload where
  status : String
  labels : Labels
deriving DecidableEq, Repr

/-- Outcome of `requests.post(callback_url, json=payload)`: either an
HTTP response arrives (any status code: `requests` does NOT raise on a
non-2xx response and line 118 never inspects the response), or the
transport fails and `requests` raises (ConnectionError, Timeout, ...). -/
inductive PostOutcome where
  | response (status : Nat)
  | transportError (msg : String)
deriving DecidableEq, Repr

/-- `traceback.format_exc()` for a raised exception: the traceback
header followed by the exception description; never the empty string. -/
def formatExc (m : String) : String :=
  "Traceback (most recent call last):\n" ++ m

/-- What one claimed task produced: the updated document, whether
`requests.post` was invoked, and the payload handed to it. -/
structure ProcResult where
  task : Task
  postCalled : Bool
  postedPayload : Option Payload
deriving DecidableEq, Repr

/-- The `try`/`except` body of `runtasks`, lines 111-123, on one claimed
task: extract `images` and `callback_url`, run the pluggable label
computation, on success post `{'status': 'success', 'labels': labels}`
to the callback URL and mark the task `completed`; any exception (a
raising label computation, or a transport failure inside
`requests.post`) is caught by the bare `except` and turns the task into
`error` with the formatted traceback.  A non-2xx response does not
raise, so the task is marked `completed` without the response status
ever being inspected. -/
def processTask (compute : List Image → PyResult Labels)
    (post : String → Payload → PostOutcome) (task : Task) : ProcResult :=
  match compute task.request.images with
  | .exn m =>
      { task := { task with status := .error, traceback := some (formatExc m) },
        postCalled := false, postedPayload := none }
  | .ok labels =>
      let payload : Payload := { status := "success", labels := labels }
      match post task.request.callback_url payload with
      | .response _ =>
          { task := { task with status := .completed },
            postCalled := true, postedPayload := some payload }
      | .transportError m =>
          { task := { task with status := .error, traceback := some (formatExc m) },
            postCalled := true, postedPayload := some payload }

/-- `tasks.find_one({'status': 'pending'})`, line 105: returns the first
pending document, without modifying the collection in any way (there is
no claim marking). -/
def findOnePending (s : Store) : Option Task :=
  s.tasks.find? (fun t => t.status = .pending)

/-- `tasks.update({'_id': task['_id']}, task)`, line 124: replaces the
(first) document whose `_id` matches with the given document. -/
def replaceFirst (tid : Nat) (t : Task) : List Task → List Task
  | [] => []
  | u :: us => if u._id = tid then t :: us else u :: replaceFirst tid t us

def updateTask (s : Store) (t : Task) : Store :=
  { s with tasks := replaceFirst t._id t s.tasks }

/-- What one iteration of the `while True` loop of `runtasks` did. -/
structure StepResult where
  store : Store
  claimed : Option Task
  postCalled : Bool
  postedPayload : Option Payload
deriving DecidableEq, Repr

/-- One iteration of the `while True` loop of `runtasks`, lines
104-128: find one pending task; if none, sleep (no store mutation);
otherwise process it and write the updated document back. -/
def runtasksStep (compute : List Image → PyResult Labels)
    (post : String → Payload → PostOutcome) (s : Store) : StepResult :=
  match findOnePending s with
  | none => { store := s, claimed := none, postCalled := false, postedPayload := none }
  | some task =>
      let r := processTask compute post task
      { store := updateTask s r.task, claimed := some task,
        postCalled := r.postCalled, postedPayload := r.postedPayload }

/-- `n` iterations of the `runtasks` loop (the source loops forever;
every prefix of the infinite run is `runtasksLoop` for some `n`). -/
def runtasksLoop (compute : List Image → PyResult Labels)
    (post : String → Payload → PostOutcome) : Nat → Store → Store
  | 0, s => s
  | n + 1, s => runtasksLoop compute post n (runtasksStep compute post s).store

/-- Two callers each invoke the worker's task-selection operation
against the same store; `find_one` performs no write, so nothing a first
caller does through it is visible to the second. -/
def twoCallers (s : Store) : Option Task × Option Task :=
  (findOnePending s, findOnePending s)

namespace JsonGrammar

/-! Modelled from the spec: §6 asserts the `GET /tasks/{secret}` response
body is "a JSON array of `\"<user_id>/<camera>\"` strings".  This
namespace decides, following the RFC 8259 grammar, whether a string is a
JSON text whose value is an array of strings:
`ws [ ws ( string (ws , ws string)* )? ws ] ws` with the RFC string
syntax (double quotes, `\\` escapes, `\\uXXXX`, no unescaped control
characters).  The fuel arguments are bounded below by the input length
plus one, and every recursive call consumes at least one character, so
fuel never runs out on any input: the checker accepts exactly the texts
of the grammar. -/

def isJsonWs (c : Char) : Bool :=
  c.toNat = 32 || c.toNat = 9 || c.toNat = 10 || c.toNat = 13

def skipWs : List Char → List Char
  | [] => []
  | c :: cs => if isJsonWs c then skipWs cs else c :: cs

def isHexDigit (c : Char) : Bool :=
  (48 ≤ c.toNat && c.toNat ≤ 57) || (65 ≤ c.toNat && c.toNat ≤ 70)
    || (97 ≤ c.toNat && c.toNat ≤ 102)

/-- The single-character escapes of RFC 8259: one of `" \ / b f n r t`. -/
def isSimpleEsc (c : Char) : Bool :=
  c.toNat = 34 || c.toNat = 92 || c.toNat = 47
    || c = 'b' || c = 'f' || c = 'n' || c = 'r' || c = 't'

/-- Consume the rest of a JSON string (the opening quote already read);
returns the remaining input after the closing quote. -/
def stringRest : Nat → List Char → Option (List Char)
  | 0, _ => none
  | _ + 1, [] => none
  | fuel + 1, c :: cs =>
    if c.toNat = 34 then some cs
    else if c.toNat = 92 then
      match cs with
      | [] => none
      | e :: cs2 =>
        if isSimpleEsc e then stringRest fuel cs2
        else if e = 'u' then
          match cs2 with
          | h1 :: h2 :: h3 :: h4 :: cs3 =>
            if isHexDigit h1 && isHexDigit h2 && isHexDigit h3 && isHexDigit h4 then
              stringRest fuel cs3
            else none
          | _ => none
        else none
    else if c.toNat < 32 then none
    else stringRest fuel cs

/-- After the closing bracket: only whitespace may remain. -/
def endOfText (l : List Char) : Bool := (skipWs l).isEmpty

/-- After one parsed string element: either the closing bracket, or a
comma followed by another string element. -/
def moreElems (strFuel : Nat) : Nat → List Char → Bool
  | 0, _ => false
  | fuel + 1, l =>
    match skipWs l with
    | [] => false
    | c :: cs =>
      if c.toNat = 93 then endOfText cs
      else if c.toNat = 44 then
        match skipWs cs with
        | [] => false
        | c2 :: cs2 =>
          if c2.toNat = 34 then
            match stringRest strFuel cs2 with
            | some rest => moreElems strFuel fuel rest
            | none => false
          else false
      else false

/-- Whether `s` is a JSON text whose value is an array of strings. -/
def isJsonStringArrayText (s : String) : Bool :=
  let fuel := s.data.length + 1
  match skipWs s.data with
  | [] => false
  | c :: cs =>
    if c.toNat = 91 then
      match skipWs cs with
      | [] => false
      | c2 :: cs2 =>
        if c2.toNat = 93 then endOfText cs2
        else if c2.toNat = 34 then
          match stringRest fuel cs2 with
          | some rest => moreElems fuel fuel rest
          | none => false
        else false
    else false

end JsonGrammar

/-! Helper lemmas. -/

/-- `find?` returns the head of the `filter` result. -/
theorem find?_eq_head?_filter {α : Type} (p : α → Bool) (l : List α) :
    l.find? p = (l.filter p).head? := by
  induction l with
  | nil => rfl
  | cons a l ih =>
    by_cases h : p a
    · rw [List.find?_cons_of_pos _ h, List.filter_cons_of_pos h]
      rfl
    · rw [List.find?_cons_of_neg _ h, List.filter_cons_of_neg h, ih]

/-- A document untouched by `replaceFirst` (different id) stays in the list. -/
theorem mem_replaceFirst_of_ne {u t : Task} {tid : Nat} :
    ∀ {l : List Task}, u ∈ l → u._id ≠ tid → u ∈ replaceFirst tid t l
  | [], h, _ => by cases h
  | v :: l, h, hne => by
    rcases List.mem_cons.mp h with rfl | hmem
    · simp [replaceFirst, hne]
    · by_cases hv : v._id = tid
      · simp [replaceFirst, hv]
        exact Or.inr hmem
      · simp [replaceFirst, hv]
        exact Or.inr (mem_replaceFirst_of_ne hmem hne)

/-- Every document after `replaceFirst` is an old document or the replacement. -/
theorem mem_of_mem_replaceFirst {v t : Task} {tid : Nat} :
    ∀ {l : List Task}, v ∈ replaceFirst tid t l → v ∈ l ∨ v = t
  | [], h => by cases h
  | u :: l, h => by
    by_cases hu : u._id = tid
    · simp [replaceFirst, hu] at h
      rcases h with rfl | hmem
      · exact Or.inr rfl
      · exact Or.inl (List.mem_cons_of_mem _ hmem)
    · simp [replaceFirst, hu] at h
      rcases h with rfl | hmem
      · exact Or.inl (List.mem_cons_self _ _)
      · rcases mem_of_mem_replaceFirst hmem with h2 | h2
        · exact Or.inl (List.mem_cons_of_mem _ h2)
        · exact Or.inr h2

/-- The updated document of `processTask` keeps the claimed document's
id and request, and always carries a terminal status. -/
theorem processTask_shape (compute : List Image → PyResult Labels)
    (post : String → Payload → PostOutcome) (t : Task) :
    (processTask compute post t).task._id = t._id
    ∧ (processTask compute post t).task.request = t.request
    ∧ ((processTask compute post t).task.status = Status.completed
        ∨ (processTask compute post t).task.status = Status.error) := by
  cases hc : compute t.request.images with
  | exn m => simp [processTask, hc]
  | ok labels =>
    cases hp : post t.request.callback_url { status := "success", labels := labels } with
    | response c => simp [processTask, hc, hp]
    | transportError m => simp [processTask, hc, hp]

/-! Concrete fixtures used by witnesses and counterexamples. -/

def exReq : TaskRequest :=
  { user_id := "alice", camera := "cam1", images := [],
    callback_url := "http://example.com/cb" }

/-! Claim C1. -/

/-- The store after submitting the same payload twice through the
ingestion endpoint. -/
def c1Store : Store :=
  (post_task (post_task emptyStore API_KEY (Body.jsonObject exReq)).1
    API_KEY (Body.jsonObject exReq)).1

/-- C1: the claim fails on the code.  The insert of `post_task` performs
no duplicate check (there is no caller-supplied identifier at all):
submitting the identical payload twice leaves two task documents with
that request content in the store, not one. -/
theorem c1_counterexample :
    (c1Store.tasks.filter (fun t => t.request = exReq)).length = 2 := by decide

/-- C1 (amended): the store performs no duplicate detection; every
accepted submission appends a fresh document with a store-generated id,
so submitting the same payload twice yields two distinct pending
documents, each holding the request content. -/
theorem c1_amended (s : Store) (p : TaskRequest) :
    ((post_task (post_task s API_KEY (Body.jsonObject p)).1
        API_KEY (Body.jsonObject p)).1).tasks
      = s.tasks
        ++ [{ _id := s.nextId, request := p, status := .pending, traceback := none },
            { _id := s.nextId + 1, request := p, status := .pending, traceback := none }]
    ∧ s.nextId ≠ s.nextId + 1 := by
  constructor
  · simp [post_task, insertTask]
  · omega

/-! Claim C2. -/

def c2Task : Task := { _id := 0, request := exReq, status := .pending, traceback := none }

def c2Store : Store := { tasks := [c2Task], nextId := 1 }

/-- C2: the claim fails on the code.  The worker's selection operation
(`find_one` on status pending) performs no write, so against a store
with exactly one pending task two callers both receive that same task —
nothing marks it claimed. -/
theorem c2_counterexample :
    c2Store.tasks.filter (fun t => t.status = Status.pending) = [c2Task]
    ∧ twoCallers c2Store = (some c2Task, some c2Task) := by decide

/-- C2 (amended): the selection operation is a non-mutating `find_one`;
with exactly one pending task, it returns that task, and any number of
callers invoking it (with no intervening status write) all receive the
same task. -/
theorem c2_amended (s : Store) (t : Task)
    (h : s.tasks.filter (fun u => u.status = Status.pending) = [t]) :
    findOnePending s = some t
    ∧ ∀ n : Nat,
        (List.replicate n (findOnePending s)).all (fun r => r = some t) := by
  have hf : findOnePending s = some t := by
    unfold findOnePending
    rw [find?_eq_head?_filter, h]
    rfl
  refine ⟨hf, fun n => ?_⟩
  simp [List.all_eq_true, hf]

/-- Witness for C2 (amended) at a concrete one-pending-task store. -/
theorem c2_amended_witness :
    findOnePending c2Store = some c2Task
    ∧ (List.replicate 3 (findOnePending c2Store)).all
        (fun r => r = some c2Task) :=
  ⟨(c2_amended c2Store c2Task (by decide)).1,
   (c2_amended c2Store c2Task (by decide)).2 3⟩

/-! Claim C3. -/

def c3Req : TaskRequest :=
  { user_id := "bob", camera := "cam2", images := [],
    callback_url := "http://example.com/cb3" }

def c3Task : Task := { _id := 7, request := c3Req, status := .pending, traceback := none }

def c3Store : Store := { tasks := [c3Task], nextId := 8 }

/-- A label computation that succeeds with an empty result. -/
def okCompute : List Image → PyResult Labels := fun _ => PyResult.ok []

/-- A delivery on which `requests.post` raises a transport error. -/
def transFailPost : String → Payload → PostOutcome :=
  fun _ _ => PostOutcome.transportError "ConnectionError"

/-- C3: the claim fails on the code.  With a successful label
computation and a transport-level delivery failure, `requests.post`
raises; the bare `except` catches it and the task is marked `error`,
not `completed`. -/
theorem c3_counterexample :
    okCompute c3Task.request.images = PyResult.ok []
    ∧ (runtasksStep okCompute transFailPost c3Store).store.tasks.map
        (fun t => t.status) = [Status.error] := by decide

/-- C3 (amended): after a successful label computation the delivery POST
is always attempted with the success payload; a non-2xx HTTP response
does not raise and the task is still marked `completed` (the response
status is never inspected), while a transport failure raises inside the
`try` block, is caught at the task boundary, and the task is marked
`error` with the formatted traceback.  In neither case does the task
return to `pending`, and the exception never escapes the loop
iteration. -/
theorem c3_amended (compute : List Image → PyResult Labels)
    (post : String → Payload → PostOutcome) (s : Store) (t : Task) (L : Labels)
    (hfind : findOnePending s = some t)
    (hok : compute t.request.images = PyResult.ok L) :
    (runtasksStep compute post s).postCalled = true
    ∧ (runtasksStep compute post s).postedPayload
        = some { status := "success", labels := L }
    ∧ (∀ c, post t.request.callback_url { status := "success", labels := L }
          = PostOutcome.response c →
        (runtasksStep compute post s).store
          = updateTask s { t with status := Status.completed })
    ∧ (∀ m, post t.request.callback_url { status := "success", labels := L }
          = PostOutcome.transportError m →
        (runtasksStep compute post s).store
          = updateTask s { t with status := Status.error,
                                  traceback := some (formatExc m) })
    ∧ (processTask compute post t).task.status ≠ Status.pending := by
  cases hpost : post t.request.callback_url { status := "success", labels := L } with
  | response c =>
    refine ⟨?_, ?_, ?_, ?_, ?_⟩ <;>
      simp [runtasksStep, hfind, processTask, hok, hpost]
  | transportError m =>
    refine ⟨?_, ?_, ?_, ?_, ?_⟩ <;>
      simp [runtasksStep, hfind, processTask, hok, hpost]

/-- Witness for C3 (amended): concrete store, successful computation,
transport-failing delivery. -/
theorem c3_amended_witness :
    (runtasksStep okCompute transFailPost c3Store).postCalled = true
    ∧ (runtasksStep okCompute transFailPost c3Store).store
        = updateTask c3Store { c3Task with status := Status.error,
                                            traceback := some (formatExc "ConnectionError") } :=
  ⟨(c3_amended okCompute transFailPost c3Store c3Task [] (by decide) rfl).1,
   (c3_amended okCompute transFailPost c3Store c3Task [] (by decide) rfl).2.2.2.1
     "ConnectionError" rfl⟩

/-! Claim C4. -/

def c4Task : Task := { _id := 4, request := c3Req, status := .pending, traceback := none }

def c4Store : Store := { tasks := [c4Task], nextId := 5 }

/-- A label computation that raises. -/
def raiseCompute : List Image → PyResult Labels :=
  fun _ => PyResult.exn "ValueError: boom"

/-- A delivery that answers 200. -/
def okPost : String → Payload → PostOutcome := fun _ _ => PostOutcome.response 200

/-- C4: a processed task always ends `completed` or `error` (every
exception inside the `try` body — raising computation or raising
delivery — is caught by the bare `except` and recorded as `error`), the
store write-back is the only mutation, and the loop proceeds
unconditionally to the next poll iteration. -/
theorem c4_exceptions_contained (compute : List Image → PyResult Labels)
    (post : String → Payload → PostOutcome) (s : Store) (n : Nat) :
    runtasksLoop compute post (n + 1) s
      = runtasksLoop compute post n (runtasksStep compute post s).store
    ∧ ∀ t, findOnePending s = some t →
        (runtasksStep compute post s).store
          = updateTask s (processTask compute post t).task
        ∧ ((processTask compute post t).task.status = Status.completed
            ∨ (processTask compute post t).task.status = Status.error)
        ∧ (∀ m, compute t.request.images = PyResult.exn m →
            (processTask compute post t).task.status = Status.error
            ∧ (processTask compute post t).task.traceback = some (formatExc m)) := by
  refine ⟨rfl, fun t hfind => ⟨?_, ?_, fun m hm => ?_⟩⟩
  · simp [runtasksStep, hfind]
  · exact (processTask_shape compute post t).2.2
  · simp [processTask, hm]

/-- Witness for C4 at a concrete store whose single task's computation
raises. -/
theorem c4_witness :
    runtasksLoop raiseCompute okPost 1 c4Store
      = runtasksLoop raiseCompute okPost 0 (runtasksStep raiseCompute okPost c4Store).store
    ∧ (runtasksStep raiseCompute okPost c4Store).store
        = updateTask c4Store (processTask raiseCompute okPost c4Task).task
    ∧ (processTask raiseCompute okPost c4Task).task.status = Status.error :=
  ⟨(c4_exceptions_contained raiseCompute okPost c4Store 0).1,
   ((c4_exceptions_contained raiseCompute okPost c4Store 0).2 c4Task (by decide)).1,
   (((c4_exceptions_contained raiseCompute okPost c4Store 0).2 c4Task (by decide)).2.2
     "ValueError: boom" rfl).1⟩

/-! Claim C5. -/

def c5Task : Task := { _id := 11, request := c3Req, status := .pending, traceback := none }

def c5Store : Store := { tasks := [c5Task], nextId := 12 }

/-- A label computation raising a KeyError. -/
def c5Compute : List Image → PyResult Labels :=
  fun _ => PyResult.exn "KeyError: images"

/-- C5: when the label computation raises, the task is transitioned to
`error` carrying the non-empty formatted traceback, and `requests.post`
is never invoked for that task (the `except` branch performs no
delivery). -/
theorem c5_compute_failure_no_delivery (compute : List Image → PyResult Labels)
    (post : String → Payload → PostOutcome) (s : Store) (t : Task) (m : String)
    (hfind : findOnePending s = some t)
    (hexn : compute t.request.images = PyResult.exn m) :
    (processTask compute post t).task.status = Status.error
    ∧ (processTask compute post t).task.traceback = some (formatExc m)
    ∧ 0 < (formatExc m).length
    ∧ (processTask compute post t).postCalled = false
    ∧ (processTask compute post t).postedPayload = none
    ∧ (runtasksStep compute post s).store
        = updateTask s (processTask compute post t).task
    ∧ (runtasksStep compute post s).postCalled = false := by
  have hlen : 0 < (formatExc m).length := by
    unfold formatExc
    rw [String.length_append]
    have h35 : 0 < "Traceback (most recent call last):\n".length := by decide
    omega
  refine ⟨?_, ?_, hlen, ?_, ?_, ?_, ?_⟩ <;>
    simp [runtasksStep, hfind, processTask, hexn]

/-- Witness for C5 at a concrete store whose single task's computation
raises. -/
theorem c5_witness :
    (processTask c5Compute okPost c5Task).task.status = Status.error
    ∧ (processTask c5Compute okPost c5Task).task.traceback
        = some (formatExc "KeyError: images")
    ∧ (processTask c5Compute okPost c5Task).postCalled = false
    ∧ (runtasksStep c5Compute okPost c5Store).postCalled = false :=
  ⟨(c5_compute_failure_no_delivery c5Compute okPost c5Store c5Task
      "KeyError: images" (by decide) rfl).1,
   (c5_compute_failure_no_delivery c5Compute okPost c5Store c5Task
      "KeyError: images" (by decide) rfl).2.1,
   (c5_compute_failure_no_delivery c5Compute okPost c5Store c5Task
      "KeyError: images" (by decide) rfl).2.2.2.1,
   (c5_compute_failure_no_delivery c5Compute okPost c5Store c5Task
      "KeyError: images" (by decide) rfl).2.2.2.2.2.2⟩

/-! Claim C6. -/

/-- Well-formedness of a store: every document id is below the fresh-id
counter and ids are pairwise distinct (Mongo object ids are unique; both
facts hold of every store the code builds). -/
def WFStore (s : Store) : Prop :=
  (∀ t ∈ s.tasks, t._id < s.nextId) ∧ (s.tasks.map (fun t => t._id)).Nodup

instance (s : Store) : Decidable (WFStore s) := by
  unfold WFStore
  infer_instance

/-- Every terminal (`completed` or `error`) document survives the
operation with its stored state unchanged. -/
def terminalPreserved (old new : Store) : Prop :=
  ∀ t ∈ old.tasks, t.status ≠ Status.pending → t ∈ new.tasks

/-- Every document of the new store is an unchanged old document, an old
`pending` document moved to `completed` or `error` with id and request
unchanged, or a freshly inserted `pending` document under an unused id:
the only status edges any operation performs are `pending → completed`
and `pending → error`. -/
def edgesOk (old new : Store) : Prop :=
  ∀ t2 ∈ new.tasks,
    t2 ∈ old.tasks
    ∨ (∃ t1 ∈ old.tasks, t1._id = t2._id ∧ t1.status = Status.pending
        ∧ t1.request = t2.request
        ∧ (t2.status = Status.completed ∨ t2.status = Status.error))
    ∨ (t2.status = Status.pending ∧ ∀ t1 ∈ old.tasks, t1._id ≠ t2._id)

/-- C6: every task document carries exactly one of the three statuses
(the `Status` type of the embedding is exhaustive: the source writes no
other value), and on a well-formed store both operations — any HTTP
submission and any worker iteration — preserve every terminal document
unchanged and only perform the edges `pending → completed` and
`pending → error` (or insert a fresh `pending` document). -/
theorem c6_status_machine (s : Store) (hwf : WFStore s) :
    (∀ secret body,
      terminalPreserved s (post_task s secret body).1
      ∧ edgesOk s (post_task s secret body).1)
    ∧ (∀ (compute : List Image → PyResult Labels)
        (post : String → Payload → PostOutcome),
      terminalPreserved s (runtasksStep compute post s).store
      ∧ edgesOk s (runtasksStep compute post s).store) := by
  constructor
  · intro secret body
    by_cases hsec : secret = API_KEY
    · cases body with
      | empty =>
        constructor
        · intro t ht _
          simpa [post_task, hsec] using ht
        · intro t2 ht2
          exact Or.inl (by simpa [post_task, hsec] using ht2)
      | malformed =>
        constructor
        · intro t ht _
          simpa [post_task, hsec] using ht
        · intro t2 ht2
          exact Or.inl (by simpa [post_task, hsec] using ht2)
      | jsonObject p =>
        constructor
        · intro t ht _
          simp [post_task, hsec, insertTask]
          exact Or.inl ht
        · intro t2 ht2
          simp [post_task, hsec, insertTask] at ht2
          rcases ht2 with ht2 | rfl
          · exact Or.inl ht2
          · refine Or.inr (Or.inr ⟨rfl, fun t1 ht1 => ?_⟩)
            exact Nat.ne_of_lt (hwf.1 t1 ht1)
    · constructor
      · intro t ht _
        simpa [post_task, hsec] using ht
      · intro t2 ht2
        exact Or.inl (by simpa [post_task, hsec] using ht2)
  · intro compute post
    cases hfind : findOnePending s with
    | none =>
      constructor
      · intro t ht _
        simpa [runtasksStep, hfind] using ht
      · intro t2 ht2
        exact Or.inl (by simpa [runtasksStep, hfind] using ht2)
    | some t =>
      have htmem : t ∈ s.tasks := List.mem_of_find?_eq_some hfind
      have htpending : t.status = Status.pending := by
        have := List.find?_some hfind
        simpa using this
      have hshape := processTask_shape compute post t
      have hstore : (runtasksStep compute post s).store
          = updateTask s (processTask compute post t).task := by
        simp [runtasksStep, hfind]
      constructor
      · intro u hu hterm
        rw [hstore]
        have hune : u ≠ t := by
          intro h
          exact hterm (h ▸ htpending)
        have hid : u._id ≠ t._id := fun h =>
          hune (List.inj_on_of_nodup_map hwf.2 hu htmem h)
        have hid2 : u._id ≠ (processTask compute post t).task._id := by
          rw [hshape.1]
          exact hid
        exact mem_replaceFirst_of_ne hu hid2
      · intro t2 ht2
        rw [hstore] at ht2
        rcases mem_of_mem_replaceFirst ht2 with h2 | rfl
        · exact Or.inl h2
        · exact Or.inr (Or.inl ⟨t, htmem, (hshape.1).symm, htpending,
            (hshape.2.1).symm, hshape.2.2⟩)

/-- Witness for C6 at a concrete well-formed store, one submission and
one worker iteration. -/
theorem c6_witness :
    WFStore c2Store
    ∧ (terminalPreserved c2Store (post_task c2Store API_KEY (Body.jsonObject exReq)).1
        ∧ edgesOk c2Store (post_task c2Store API_KEY (Body.jsonObject exReq)).1)
    ∧ (terminalPreserved c2Store (runtasksStep okCompute okPost c2Store).store
        ∧ edgesOk c2Store (runtasksStep okCompute okPost c2Store).store) :=
  ⟨by decide,
   (c6_status_machine c2Store (by decide)).1 API_KEY (Body.jsonObject exReq),
   (c6_status_machine c2Store (by decide)).2 okCompute okPost⟩

/-! Claim C7. -/

def c7Image1 : Image :=
  { type := "image/jpeg", size := (640, 480),
    timestamp := "2017-05-05T01:31:13.738647", image_b64 := "QUJD" }

def c7Image2 : Image :=
  { type := "image/jpeg", size := (640, 480),
    timestamp := "2017-05-05T01:31:14.738647", image_b64 := "REVG" }

def c7Req : TaskRequest :=
  { user_id := "carol", camera := "cam7", images := [c7Image1, c7Image2],
    callback_url := "http://example.com/cb7" }

def c7Task : Task := { _id := 20, request := c7Req, status := .pending, traceback := none }

def c7Store : Store := { tasks := [c7Task], nextId := 21 }

/-- A decoder on which every `image_b64` decodes. -/
def okDecode : String → PyResult Unit := fun _ => PyResult.ok ()

/-- C7: a claimed task with images at two distinct timestamps, processed
with `compute_labels` under a decoder that succeeds on both, hands
delivery the payload `{status: "success", labels: L}` whose key list is
exactly the two timestamps; when the delivery POST comes back with a
response, the task ends `completed`. -/
theorem c7_round_trip (dec : String → PyResult Unit)
    (post : String → Payload → PostOutcome) (s : Store) (t : Task)
    (i1 i2 : Image) (code : Nat)
    (himg : t.request.images = [i1, i2])
    (hts : i1.timestamp ≠ i2.timestamp)
    (hd1 : dec i1.image_b64 = PyResult.ok ())
    (hd2 : dec i2.image_b64 = PyResult.ok ())
    (hfind : findOnePending s = some t)
    (hpost : post t.request.callback_url
        { status := "success",
          labels := [(i1.timestamp, catDogLabels), (i2.timestamp, catDogLabels)] }
      = PostOutcome.response code) :
    (runtasksStep (compute_labels dec) post s).postedPayload
      = some { status := "success",
               labels := [(i1.timestamp, catDogLabels), (i2.timestamp, catDogLabels)] }
    ∧ ([(i1.timestamp, catDogLabels), (i2.timestamp, catDogLabels)].map Prod.fst)
      = [i1.timestamp, i2.timestamp]
    ∧ (runtasksStep (compute_labels dec) post s).store
      = updateTask s { t with status := Status.completed } := by
  have hcl : compute_labels dec t.request.images
      = PyResult.ok [(i1.timestamp, catDogLabels), (i2.timestamp, catDogLabels)] := by
    simp [compute_labels, computeLabelsGo, himg, hd1, hd2, dictInsert, hts]
  refine ⟨?_, by simp, ?_⟩ <;>
    simp [runtasksStep, hfind, processTask, hcl, hpost]

/-- Witness for C7 at a concrete two-image task. -/
theorem c7_witness :
    (runtasksStep (compute_labels okDecode) okPost c7Store).postedPayload
      = some { status := "success",
               labels := [(c7Image1.timestamp, catDogLabels),
                          (c7Image2.timestamp, catDogLabels)] }
    ∧ (runtasksStep (compute_labels okDecode) okPost c7Store).store
      = updateTask c7Store { c7Task with status := Status.completed } :=
  ⟨(c7_round_trip okDecode okPost c7Store c7Task c7Image1 c7Image2 200
      rfl (by decide) rfl rfl (by decide) rfl).1,
   (c7_round_trip okDecode okPost c7Store c7Task c7Image1 c7Image2 200
      rfl (by decide) rfl rfl (by decide) rfl).2.2⟩

/-! Claim C8. -/

/-- C8: the claim fails on the code.  A request with the matching secret
whose body is not valid JSON does not get a 200 `ok` response:
`json.loads` raises and the exception escapes the handler (Bottle
answers 500). -/
theorem c8_counterexample :
    (post_task emptyStore API_KEY Body.malformed).2 ≠ HttpOut.response 200 "ok" := by
  decide

/-- C8 (amended): any request (to either endpoint) whose secret differs
from the configured one gets status 400 with body `Invalid API Key`,
no task is inserted and no task data is returned; with the matching
secret, a POST whose body is empty or parses as a JSON object answers
200 `ok`, while a body that is not valid JSON raises out of the handler
(500), inserting nothing. -/
theorem c8_auth (s : Store) (secret : String) (body : Body) (p : TaskRequest)
    (hbad : secret ≠ API_KEY) :
    post_task s secret body = (s, HttpOut.response 400 "Invalid API Key")
    ∧ get_tasks s secret = (400, "Invalid API Key")
    ∧ post_task s API_KEY Body.empty = (s, HttpOut.response 200 "ok")
    ∧ (post_task s API_KEY (Body.jsonObject p)).2 = HttpOut.response 200 "ok"
    ∧ post_task s API_KEY Body.malformed = (s, HttpOut.raised) := by
  refine ⟨?_, ?_, ?_, ?_, ?_⟩ <;> simp [post_task, get_tasks, hbad]

/-- Witness for C8 (amended) at a concrete wrong secret. -/
theorem c8_auth_witness :
    post_task emptyStore "wrong" Body.empty
      = (emptyStore, HttpOut.response 400 "Invalid API Key")
    ∧ get_tasks emptyStore "wrong" = (400, "Invalid API Key")
    ∧ post_task emptyStore API_KEY Body.malformed = (emptyStore, HttpOut.raised) :=
  ⟨(c8_auth emptyStore "wrong" Body.empty exReq (by decide)).1,
   (c8_auth emptyStore "wrong" Body.empty exReq (by decide)).2.1,
   (c8_auth emptyStore "wrong" Body.empty exReq (by decide)).2.2.2.2⟩

/-! Claim C9. -/

def c9Task : Task := { _id := 30, request := exReq, status := .pending, traceback := none }

def c9Store : Store := { tasks := [c9Task], nextId := 31 }

/-- A store with the same pending `<user_id>/<camera>` projection as
`c9Store` but a different callback URL, different images and an extra
terminal task: the GET response cannot distinguish the two stores. -/
def c9StoreB : Store :=
  { tasks :=
      [{ _id := 40,
         request := { user_id := "alice", camera := "cam1",
                      images := [c7Image1],
                      callback_url := "http://other.example/cb" },
         status := .pending, traceback := none },
       { _id := 41, request := c3Req, status := .error,
         traceback := some "Traceback" }],
    nextId := 42 }

/-- C9: the claim fails on the code.  With one pending task, the body
produced by `repr` is the single-quoted Python literal
`['alice/cam1']`, which is not a JSON text whose value is an array of
strings. -/
theorem c9_counterexample :
    (c9Store.tasks.filter (fun t => t.status = Status.pending)).length = 1
    ∧ (get_tasks c9Store API_KEY).1 = 200
    ∧ JsonGrammar.isJsonStringArrayText (get_tasks c9Store API_KEY).2 = false := by
  decide

/-- C9 (amended): the valid-secret GET answers 200 with the Python
`repr` of the pending summary list — exactly one `<user_id>/<camera>`
entry per pending task (single-quoted, hence not valid JSON once
non-empty) — and the body is a function of only the `user_id` and
`camera` fields of pending tasks, so it leaks no image bytes and no
callback URLs. -/
theorem c9_pending_list (s : Store) :
    get_tasks s API_KEY = (200, py2ReprStrList (pendingSummaries s))
    ∧ (pendingSummaries s).length
        = (s.tasks.filter (fun t => t.status = Status.pending)).length
    ∧ ∀ s2 : Store, pendingSummaries s2 = pendingSummaries s →
        get_tasks s2 API_KEY = get_tasks s API_KEY := by
  refine ⟨by simp [get_tasks], by simp [pendingSummaries], ?_⟩
  intro s2 h
  simp [get_tasks, h]

/-- Witness for C9 (amended): two stores that differ in callback URLs,
images and terminal tasks produce the same response. -/
theorem c9_pending_list_witness :
    get_tasks c9Store API_KEY = (200, py2ReprStrList (pendingSummaries c9Store))
    ∧ get_tasks c9StoreB API_KEY = get_tasks c9Store API_KEY :=
  ⟨(c9_pending_list c9Store).1,
   (c9_pending_list c9Store).2.2 c9StoreB (by decide)⟩

/-! Claim C10. -/

/-- C10: a POST with matching secret and empty request body answers 200
`ok` and leaves the store unchanged (the insert branch is guarded by
`if body:`). -/
theorem c10_empty_body_ok (s : Store) :
    post_task s API_KEY Body.empty = (s, HttpOut.response 200 "ok") := by
  simp [post_task]

end HookSpec
